import Mathlib

/-!
# Verification of the heim background-task scheduler

A shallow embedding of `src/heim/tasks/{queries.py, executor.py, base.py}`
together with the database access layer `src/heim/db/__init__.py` they run
on (asyncpg over PostgreSQL).

The db layer contains two defects that dominate the scheduler's runtime
behavior, and the embedding models them:

* `db/__init__.py:146` — `transaction()` enters asyncpg's `Transaction`
  with a plain `with`; the object supports only the asynchronous protocol
  (its `start`/`commit`/`rollback` are coroutines), so every entry of
  `db.transaction()` — as `async with db.transaction():` or as the
  `@db.transaction()` decorator — raises `TypeError` before the body runs.
  (The older copy in `src/weather_station/db/__init__.py:116` has the
  correct `async with con.transaction():`.)
* `db/__init__.py:153` — `execute()` wraps the synchronous
  `@contextmanager log_query` in `async with`, so every `db.execute` call
  raises `TypeError` before its SQL statement runs.  Its four siblings
  (`executemany`, `fetch`, `fetchrow`, `fetchval`) correctly use a plain
  `with log_query(...)` and are intact.

Consequently the query functions built on `fetchrow`/`fetchval`
(`get_next_task`, `queue_task`, the `INSERT ... RETURNING` statements) are
modelled as effective state transitions, while `db.transaction()` entry
and `db.execute` are modelled as raising: `task_started`, `task_finished`
and `task_failed` always raise, `create_scheduled_task` and
`queue_next_task` raise at their decorator entry, and `run_next_task`
raises at its first statement on every call.

Other modelling conventions:

* Timestamps are `Nat` (seconds); `datetime.now(UTC)` and
  `clock_timestamp()` become explicit `now` parameters.
* The database is the record `DB`; a Python exception escaping a function
  is an `Except.error`, and because state is threaded explicitly, the
  state an error carries (or the caller's own state when the error type
  carries none) is the state that survives.
* `FOR UPDATE SKIP LOCKED` is modelled by a `locked : List Nat` set of
  row ids held by other in-flight transactions, which the query excludes.
* `croniter(expr, base).get_next(datetime)` (external dependency) is
  embedded as `cronNext`: the smallest cron boundary strictly after
  `base`, for period-style expressions.
* Task bodies are opaque user functions; `Task.func` returns the state
  the body writes, its (abstract) duration and whether it raised, and
  `runBody` applies the `asyncio.wait_for` timeout wrapping.
-/

namespace Heim

/-- Task arguments: an opaque structured map (JSON in the source). -/
abbrev Args := List (String × String)

/-- Cron expressions, as far as the scheduler observes them through
`croniter(...).get_next`.  `everyMinute` is `"* * * * *"`. -/
inductive Cron where
  | everyMinute
  | everyHour
  | everyDay
deriving DecidableEq, Repr

/-- Length in seconds of one period of the cron expression. -/
def Cron.period : Cron → Nat
  | .everyMinute => 60
  | .everyHour => 3600
  | .everyDay => 86400

/-- `croniter(expr, base).get_next(datetime)`: the next cron boundary
strictly after `base` (modelled for period-style expressions). -/
def cronNext (c : Cron) (base : Nat) : Nat :=
  (base / c.period + 1) * c.period

/-- One row of the `task` table. -/
structure TaskRow where
  id : Nat
  name : String
  arguments : Args
  run_at : Nat
  started_at : Option Nat
  finished_at : Option Nat
  from_schedule_id : Option Nat
deriving DecidableEq, Repr

/-- One row of the `scheduled_task` table. -/
structure ScheduleRow where
  id : Nat
  name : String
  arguments : Args
  expression : Cron
  is_enabled : Bool
  next_task_id : Option Nat
deriving DecidableEq, Repr

/-- The database state: the two scheduler tables, their id sequences, and
`userData`, which stands for all other application tables a task body may
write to. -/
structure DB where
  tasks : List TaskRow
  schedules : List ScheduleRow
  nextTaskId : Nat
  nextScheduleId : Nat
  userData : List String
deriving DecidableEq, Repr

/-- Python exceptions reachable in the scheduler and db layers:
`typeError` is what the two db-layer context-manager defects raise
(protocol mismatch), `unknownTask` is the registry lookup's `KeyError`,
and `noSuchSchedule` the `ValueError` of `queue_next_task`. -/
inductive ExecError where
  | typeError
  | unknownTask (name : String)
  | noSuchSchedule (schedule_id : Nat)
deriving DecidableEq, Repr

/-! ## db/__init__.py: the two broken access paths -/

/-- `db.execute` (db/__init__.py:150): the `async with` on the synchronous
`log_query` context manager (db/__init__.py:153) raises `TypeError`
before `con.execute` is reached, on every call.  `eff` records the
statement's intended effect; it is never applied. -/
def db_execute (eff : DB → DB) (s : DB) : Except ExecError DB :=
  .error .typeError

/-- `db.transaction()` (db/__init__.py:135): entering the context —
whether as `async with db.transaction():` or through the
`@db.transaction()` decorator — raises `TypeError` at
db/__init__.py:146 (`with con.transaction():` applies the synchronous
protocol to asyncpg's async-only `Transaction`), before `body` runs.  No
state is read or written. -/
def db_transaction {α : Type} (body : DB → Except ExecError α) (s : DB) :
    Except ExecError α :=
  .error .typeError

/-! ## queries.py -/

/-- The `WHERE run_at <= $1 AND started_at IS NULL` predicate of
`get_next_task`, with the `SKIP LOCKED` exclusion of rows locked by other
in-flight transactions. -/
def leasableB (now : Nat) (locked : List Nat) (r : TaskRow) : Bool :=
  decide (r.run_at ≤ now) && r.started_at.isNone && !(locked.contains r.id)

/-- `ORDER BY run_at LIMIT 1`: the first row with minimal `run_at`. -/
def minByRunAt : List TaskRow → Option TaskRow
  | [] => none
  | r :: rs =>
    match minByRunAt rs with
    | none => some r
    | some m => if r.run_at ≤ m.run_at then some r else some m

/-- `get_next_task` (queries.py:38): select one due, unstarted, unlocked
row, ordered by `run_at`, `LIMIT 1 FOR UPDATE SKIP LOCKED`.  Runs through
`db.fetchrow`, whose `log_query` use is correct, so the query is
effective. -/
def get_next_task (now : Nat) (locked : List Nat) (s : DB) : Option TaskRow :=
  minByRunAt (s.tasks.filter (leasableB now locked))

/-- The effect of an `UPDATE task ... WHERE id = $1` statement. -/
def updateTask (i : Nat) (f : TaskRow → TaskRow) (s : DB) : DB :=
  { s with tasks := s.tasks.map fun r => if r.id = i then f r else r }

/-- The effect of an `UPDATE scheduled_task ... WHERE id = $1` statement. -/
def updateSchedule (i : Nat) (f : ScheduleRow → ScheduleRow) (s : DB) : DB :=
  { s with schedules := s.schedules.map fun e => if e.id = i then f e else e }

/-- `SELECT ... FROM task WHERE id = i` (used in statements). -/
def findTask (i : Nat) (s : DB) : Option TaskRow :=
  s.tasks.find? fun r => r.id == i

/-- `SELECT ... FROM scheduled_task WHERE id = $1` (via `db.fetchrow`,
intact). -/
def findSchedule (i : Nat) (s : DB) : Option ScheduleRow :=
  s.schedules.find? fun e => e.id == i

/-- `queue_task` (queries.py:9): insert a one-off task row, `run_at`
defaulting to now.  Runs through `db.fetchval` (intact), so the insert is
effective. -/
def queue_task (name : String) (arguments : Args) (run_at : Option Nat)
    (now : Nat) (s : DB) : Nat × DB :=
  let id := s.nextTaskId
  (id, { s with
          tasks := s.tasks ++
            [{ id := id, name := name, arguments := arguments,
               run_at := run_at.getD now, started_at := none,
               finished_at := none, from_schedule_id := none }],
          nextTaskId := id + 1 })

/-- `task_started` (queries.py:59): `UPDATE task SET
started_at=clock_timestamp() WHERE id = $1` through `db.execute` — which
raises `TypeError` on every call, so `started_at` is never written. -/
def task_started (task_id : Nat) (now : Nat) (s : DB) : Except ExecError DB :=
  db_execute (updateTask task_id fun r => { r with started_at := some now }) s

/-- `task_finished` (queries.py:69): `UPDATE task SET
finished_at=clock_timestamp() WHERE id = $1` through `db.execute` — which
raises `TypeError` on every call, so `finished_at` is never written. -/
def task_finished (task_id : Nat) (now : Nat) (s : DB) : Except ExecError DB :=
  db_execute (updateTask task_id fun r => { r with finished_at := some now }) s

/-- `task_failed` (queries.py:79): `UPDATE task SET started_at=NULL,
run_at=run_at + '30 seconds' WHERE id = $1` through `db.execute` — which
raises `TypeError` on every call, so `started_at` is never reset and
`run_at` never advanced. -/
def task_failed (task_id : Nat) (s : DB) : Except ExecError DB :=
  db_execute
    (updateTask task_id fun r =>
      { r with started_at := none, run_at := r.run_at + 30 }) s

/-- First `INSERT` of `create_scheduled_task` (queries.py:106): the
schedule row created with `is_enabled = false` and no successor (via the
intact `db.fetchval`). -/
def insertScheduleRow (name : String) (arguments : Args) (expr : Cron)
    (s : DB) : Nat × DB :=
  let sid := s.nextScheduleId
  (sid, { s with
           schedules := s.schedules ++
             [{ id := sid, name := name, arguments := arguments,
                expression := expr, is_enabled := false,
                next_task_id := none }],
           nextScheduleId := sid + 1 })

/-- `INSERT INTO task (name, arguments, from_schedule_id, run_at)` as
written in `create_scheduled_task` and `queue_next_task` (via the intact
`db.fetchval`). -/
def insertScheduleTask (name : String) (arguments : Args) (sid : Nat)
    (run_at : Nat) (s : DB) : Nat × DB :=
  let tid := s.nextTaskId
  (tid, { s with
           tasks := s.tasks ++
             [{ id := tid, name := name, arguments := arguments,
                run_at := run_at, started_at := none, finished_at := none,
                from_schedule_id := some sid }],
           nextTaskId := tid + 1 })

/-- `create_scheduled_task` (queries.py:98): a `@db.transaction()`
function, so every call raises `TypeError` at the decorator's context
entry, before the first `INSERT`.  The body (two inserts via the intact
`fetchval`, then the linking `UPDATE` via the broken `db.execute`, which
would itself raise) is retained for structure but never runs: no schedule
is ever created. -/
def create_scheduled_task (name : String) (arguments : Args) (expr : Cron)
    (now : Nat) (s : DB) : Except ExecError (Nat × DB) :=
  db_transaction
    (fun s0 =>
      let step1 := insertScheduleRow name arguments expr s0
      let step2 := insertScheduleTask name arguments step1.1
        (cronNext expr now) step1.2
      match db_execute
          (updateSchedule step1.1 fun e =>
            { e with
              next_task_id := some step2.1, is_enabled := true })
          step2.2 with
      | .ok s3 => .ok (step1.1, s3)
      | .error e => .error e) s

/-- `queue_next_task` (queries.py:140): a `@db.transaction()` function, so
every call raises `TypeError` at the decorator's context entry.  The body
(schedule lookup via the intact `fetchrow` — note it never reads
`is_enabled` — `ValueError` on a missing schedule, successor insert via
the intact `fetchval` at the next cron boundary after `previous`, then
the `next_task_id` `UPDATE` via the broken `db.execute`) is retained for
structure but never runs: no successor is ever inserted. -/
def queue_next_task (schedule_id : Nat) (previous : Option Nat) (now : Nat)
    (s : DB) : Except ExecError DB :=
  db_transaction
    (fun s0 =>
      match findSchedule schedule_id s0 with
      | none => .error (.noSuchSchedule schedule_id)
      | some sch =>
        let step := insertScheduleTask sch.name sch.arguments schedule_id
          (cronNext sch.expression (previous.getD now)) s0
        db_execute
          (updateSchedule schedule_id fun e =>
            { e with next_task_id := some step.1 })
          step.2) s

/-! ## base.py: the task registry -/

/-- The result of letting a task body run to completion (or cancellation):
the state it wrote, how long it ran, and whether it raised. -/
structure BodyRun where
  state : DB
  duration : Nat
  raises : Bool

/-- A registered task (`Task` in base.py): name, recurrence/transaction
metadata, timeout (seconds) and the opaque body. -/
structure Task where
  name : String
  allow_skip : Bool
  atomic : Bool
  timeout : Nat
  func : Args → DB → BodyRun

/-- The process-wide `_TASK_REGISTRY` mapping names to tasks. -/
abbrev Registry := List (String × Task)

/-- `get_task` (base.py:60): a plain dict lookup; `none` is the `KeyError`
case. -/
def get_task (reg : Registry) (name : String) : Option Task :=
  (reg.find? fun p => p.1 == name).map (·.2)

/-! ## executor.py -/

/-- How one invocation of a body ended, after timeout wrapping. -/
inductive BodyOutcome where
  | success
  | raised
  | timedOut
deriving DecidableEq, Repr

/-- `asyncio.wait_for(task(**arguments), timeout=task.timeout)`: if the
body's duration exceeds the configured timeout it is cancelled and
`TimeoutError` is raised; otherwise the body's own outcome stands. -/
def runBody (t : Task) (arguments : Args) (s : DB) : DB × BodyOutcome :=
  let run := t.func arguments s
  if t.timeout < run.duration then (run.state, .timedOut)
  else if run.raises then (run.state, .raised)
  else (run.state, .success)

/-- `execute_task` (executor.py:96).  With `atomic = true`, the inner
`async with db.transaction():` raises `TypeError` before the body runs —
no savepoint ever opens — the `except Exception:` clause catches it and
calls `task_failed`, whose `db.execute` raises `TypeError` again, and
that one escapes with nothing written.  With `atomic = false` the body
really runs (wrapped only by `wait_for`); the bookkeeping afterwards
(`task_finished` in the `else:` clause on success, `task_failed` in the
handler on failure) raises `TypeError` via `db.execute`, escaping with
only the body's own writes surviving.  Branches behind the bookkeeping's
`.ok` case mirror the source's next lines but are unreachable. -/
def execute_task (task : Task) (task_id : Nat) (arguments : Args)
    (run_at : Nat) (from_schedule_id : Option Nat) (atomic : Bool)
    (now : Nat) (s : DB) : Except (ExecError × DB) DB :=
  if atomic then
    match task_failed task_id s with
    | .ok s1 => .ok s1
    | .error e => .error (e, s)
  else
    match runBody task arguments s with
    | (sb, .success) =>
      match task_finished task_id now sb with
      | .error e => .error (e, sb)
      | .ok s2 =>
        match from_schedule_id with
        | none => .ok s2
        | some sid =>
          match queue_next_task sid
              (some (if task.allow_skip then now else run_at)) now s2 with
          | .ok s3 => .ok s3
          | .error e => .error (e, s2)
    | (sb, _) =>
      match task_failed task_id sb with
      | .ok s1 => .ok s1
      | .error e => .error (e, sb)

/-- `run_next_task` (executor.py:50): its body is one
`async with db.transaction():` block (lease via `get_next_task`, registry
lookup via `get_task`, `task_started`, atomic dispatch) followed by the
non-atomic dispatch and the `return True`/`return False` statements.
Entering `db.transaction()` raises `TypeError` before any of that, on
every call: no row is leased or modified, the registry is never
consulted, nothing executes, and no boolean is returned — the exception
escapes with the state untouched, and `run_tasks`, which catches nothing,
terminates. -/
def run_next_task (reg : Registry) (now : Nat) (locked : List Nat)
    (s : DB) : Except (ExecError × DB) (Bool × DB) :=
  .error (.typeError, s)

/-- One iteration of `run_tasks` (executor.py:40): `if not await
run_next_task(): await asyncio.sleep(1)`.  Returns whether the loop
sleeps before the next iteration together with the new state, or `none`
when an exception propagates out of `run_next_task`, terminating the
loop. -/
def run_tasks_iter (reg : Registry) (now : Nat) (locked : List Nat)
    (s : DB) : Option (Bool × DB) :=
  match run_next_task reg now locked s with
  | .ok (ran, s') => some (!ran, s')
  | .error _ => none

/-! ## Concurrency model for the lease query -/

/-- N concurrent lease attempts racing over the same store snapshot: each
attempt runs the `get_next_task` query atomically; a successful attempt
holds its `FOR UPDATE` row lock (the leasing transaction is still open),
so later attempts skip that row.  The list records what each attempt
observed. -/
def leaseAttempts (now : Nat) : Nat → List Nat → DB → List (Option TaskRow)
  | 0, _, _ => []
  | n + 1, locked, s =>
    match get_next_task now locked s with
    | some r => some r :: leaseAttempts now n (r.id :: locked) s
    | none => none :: leaseAttempts now n locked s

/-! ## Concrete fixtures used by witnesses and counterexamples -/

/-- A queued row naming a task absent from the registry. -/
def ghostRow : TaskRow :=
  { id := 7, name := "ghost", arguments := [], run_at := 10,
    started_at := none, finished_at := none, from_schedule_id := none }

def sGhost : DB :=
  { tasks := [ghostRow], schedules := [], nextTaskId := 8,
    nextScheduleId := 0, userData := [] }

/-- An atomic task whose body records that it ran and succeeds quickly. -/
def tickTask : Task :=
  { name := "tick", allow_skip := false, atomic := true, timeout := 10,
    func := fun _ s => { state := { s with userData := "ran" :: s.userData },
                         duration := 1, raises := false } }

def regTick : Registry := [("tick", tickTask)]

def tickRow : TaskRow :=
  { id := 0, name := "tick", arguments := [], run_at := 0,
    started_at := none, finished_at := none, from_schedule_id := none }

def sTick : DB :=
  { tasks := [tickRow], schedules := [], nextTaskId := 1,
    nextScheduleId := 0, userData := [] }

/-- An atomic task whose body writes application data and then raises. -/
def boomTask : Task :=
  { name := "boom", allow_skip := false, atomic := true, timeout := 10,
    func := fun _ s => { state := { s with userData := "half" :: s.userData },
                         duration := 1, raises := true } }

def regBoom : Registry := [("boom", boomTask)]

def boomRow : TaskRow :=
  { id := 3, name := "boom", arguments := [], run_at := 20,
    started_at := none, finished_at := none, from_schedule_id := none }

def sBoom : DB :=
  { tasks := [boomRow], schedules := [], nextTaskId := 4,
    nextScheduleId := 0, userData := [] }

/-- A non-atomic task whose body runs past its timeout. -/
def slowTask : Task :=
  { name := "slow", allow_skip := false, atomic := false, timeout := 10,
    func := fun _ s => { state := { s with userData := "slow" :: s.userData },
                         duration := 100, raises := false } }

def regSlow : Registry := [("slow", slowTask)]

def slowRow : TaskRow :=
  { id := 9, name := "slow", arguments := [], run_at := 40,
    started_at := none, finished_at := none, from_schedule_id := none }

def sSlow : DB :=
  { tasks := [slowRow], schedules := [], nextTaskId := 10,
    nextScheduleId := 0, userData := [] }

/-- An atomic, `allow_skip = false` task used for schedule chaining. -/
def chainTask : Task :=
  { name := "chain", allow_skip := false, atomic := true, timeout := 10,
    func := fun _ s => { state := s, duration := 1, raises := false } }

def regChain : Registry := [("chain", chainTask)]

/-- A disabled every-minute schedule whose next occurrence is row 5. -/
def chainSchedule : ScheduleRow :=
  { id := 2, name := "chain", arguments := [], expression := .everyMinute,
    is_enabled := false, next_task_id := some 5 }

def chainRow : TaskRow :=
  { id := 5, name := "chain", arguments := [], run_at := 120,
    started_at := none, finished_at := none, from_schedule_id := some 2 }

def sChain : DB :=
  { tasks := [chainRow], schedules := [chainSchedule], nextTaskId := 6,
    nextScheduleId := 3, userData := [] }

/-- A store holding two unstarted rows with distinct due times. -/
def quietRowA : TaskRow :=
  { id := 0, name := "quiet", arguments := [], run_at := 10,
    started_at := none, finished_at := none, from_schedule_id := none }

def quietRowB : TaskRow :=
  { id := 1, name := "quiet", arguments := [], run_at := 20,
    started_at := none, finished_at := none, from_schedule_id := none }

def sQuiet : DB :=
  { tasks := [quietRowA, quietRowB], schedules := [], nextTaskId := 2,
    nextScheduleId := 0, userData := [] }

/-! ## Basic lemmas about the lease query -/

theorem minByRunAt_mem : ∀ {l : List TaskRow} {m : TaskRow},
    minByRunAt l = some m → m ∈ l := by
  intro l
  induction l with
  | nil => intro m h; simp [minByRunAt] at h
  | cons r rs ih =>
    intro m h
    simp only [minByRunAt] at h
    cases hm : minByRunAt rs with
    | none =>
      rw [hm] at h
      simp only [Option.some.injEq] at h
      subst h
      exact List.mem_cons_self r rs
    | some m' =>
      rw [hm] at h
      by_cases hle : r.run_at ≤ m'.run_at
      · simp only [hle, if_true, Option.some.injEq] at h
        subst h
        exact List.mem_cons_self r rs
      · simp only [hle, if_false, Option.some.injEq] at h
        subst h
        exact List.mem_cons_of_mem _ (ih hm)

theorem minByRunAt_eq_none_iff {l : List TaskRow} :
    minByRunAt l = none ↔ l = [] := by
  cases l with
  | nil => simp [minByRunAt]
  | cons r rs =>
    simp only [minByRunAt]
    constructor
    · intro h
      cases hm : minByRunAt rs with
      | none => rw [hm] at h; cases h
      | some m' =>
        rw [hm] at h
        by_cases hle : r.run_at ≤ m'.run_at <;> simp [hle] at h
    · intro h; cases h

theorem minByRunAt_le : ∀ {l : List TaskRow} {m : TaskRow},
    minByRunAt l = some m → ∀ x ∈ l, m.run_at ≤ x.run_at := by
  intro l
  induction l with
  | nil => intro m h; simp [minByRunAt] at h
  | cons r rs ih =>
    intro m h x hx
    simp only [minByRunAt] at h
    cases hm : minByRunAt rs with
    | none =>
      rw [hm] at h
      simp only [Option.some.injEq] at h
      subst h
      rcases List.mem_cons.1 hx with rfl | hx'
      · exact le_refl _
      · rw [minByRunAt_eq_none_iff.1 hm] at hx'
        exact absurd hx' (List.not_mem_nil x)
    | some m' =>
      rw [hm] at h
      by_cases hle : r.run_at ≤ m'.run_at
      · simp only [hle, if_true, Option.some.injEq] at h
        subst h
        rcases List.mem_cons.1 hx with rfl | hx'
        · exact le_refl _
        · exact le_trans hle (ih hm x hx')
      · simp only [hle, if_false, Option.some.injEq] at h
        subst h
        rcases List.mem_cons.1 hx with rfl | hx'
        · exact le_of_lt (lt_of_not_le hle)
        · exact ih hm x hx'

theorem leasableB_eq_true {now : Nat} {locked : List Nat} {r : TaskRow} :
    leasableB now locked r = true ↔
      r.run_at ≤ now ∧ r.started_at = none ∧ locked.contains r.id = false := by
  simp [leasableB, Option.isNone_iff_eq_none, and_assoc]

theorem get_next_task_some {now : Nat} {locked : List Nat} {s : DB}
    {row : TaskRow} (h : get_next_task now locked s = some row) :
    row ∈ s.tasks ∧ row.run_at ≤ now ∧ row.started_at = none ∧
      locked.contains row.id = false ∧
      ∀ r ∈ s.tasks, r.run_at ≤ now → r.started_at = none →
        locked.contains r.id = false → row.run_at ≤ r.run_at := by
  have hmem := minByRunAt_mem h
  have hmin := minByRunAt_le h
  rw [List.mem_filter] at hmem
  obtain ⟨hmem, hleas⟩ := hmem
  obtain ⟨h1, h2, h3⟩ := leasableB_eq_true.1 hleas
  refine ⟨hmem, h1, h2, h3, fun r hr hr1 hr2 hr3 => ?_⟩
  exact hmin r (List.mem_filter.2 ⟨hr, leasableB_eq_true.2 ⟨hr1, hr2, hr3⟩⟩)

theorem get_next_task_eq_none {now : Nat} {locked : List Nat} {s : DB} :
    get_next_task now locked s = none ↔
      ∀ r ∈ s.tasks, leasableB now locked r = false := by
  rw [get_next_task, minByRunAt_eq_none_iff, List.filter_eq_nil_iff]
  simp [Bool.not_eq_true]

theorem contains_eq_true_of_mem {l : List Nat} {a : Nat} (h : a ∈ l) :
    l.contains a = true :=
  List.elem_eq_true_of_mem h

/-- With the one due row locked by an in-flight lease, a competing
`get_next_task` finds nothing (it skips the locked row). -/
theorem get_next_task_of_locked {now : Nat} {s : DB} {r0 : TaskRow}
    (h : s.tasks.filter (leasableB now []) = [r0]) {locked : List Nat}
    (hl : r0.id ∈ locked) : get_next_task now locked s = none := by
  rw [get_next_task_eq_none]
  intro r hr
  by_contra hc
  rw [Bool.not_eq_false] at hc
  obtain ⟨h1, h2, h3⟩ := leasableB_eq_true.1 hc
  have hr0 : r ∈ s.tasks.filter (leasableB now []) := by
    rw [List.mem_filter]
    refine ⟨hr, leasableB_eq_true.2 ⟨h1, h2, rfl⟩⟩
  rw [h] at hr0
  have hrr : r = r0 := by simpa using hr0
  subst hrr
  rw [contains_eq_true_of_mem hl] at h3
  cases h3

/-! ## C7: the lease query's selection contract -/

/-- C7: `get_next_task` (the spec's `lease_next`) is an `Option`, hence
returns at most one row; with no competing in-flight lease, a returned row
is due (`run_at ≤ now`), unstarted, and has the minimum `run_at` among all
due unstarted rows, and `none` is returned exactly when no row satisfies
the predicate. -/
theorem get_next_task_spec (now : Nat) (s : DB) :
    (∀ row, get_next_task now [] s = some row →
      row ∈ s.tasks ∧ row.run_at ≤ now ∧ row.started_at = none ∧
        ∀ r ∈ s.tasks, r.run_at ≤ now → r.started_at = none →
          row.run_at ≤ r.run_at) ∧
    (get_next_task now [] s = none ↔
      ∀ r ∈ s.tasks, ¬(r.run_at ≤ now ∧ r.started_at = none)) := by
  constructor
  · intro row h
    obtain ⟨hmem, h1, h2, _, hmin⟩ := get_next_task_some h
    exact ⟨hmem, h1, h2, fun r hr hr1 hr2 => hmin r hr hr1 hr2 rfl⟩
  · rw [get_next_task_eq_none]
    have hl : ∀ r : TaskRow, leasableB now [] r = false ↔
        ¬(r.run_at ≤ now ∧ r.started_at = none) := by
      intro r
      rw [← Bool.not_eq_true, leasableB_eq_true]
      simp
    constructor
    · intro h r hr
      exact (hl r).1 (h r hr)
    · intro h r hr
      exact (hl r).2 (h r hr)

/-- Witness for C7: at `now = 25` the store `sQuiet` yields its oldest due
row, which is due, unstarted, and no later than the other due row. -/
theorem get_next_task_spec_witness :
    quietRowA ∈ sQuiet.tasks ∧ quietRowA.run_at ≤ 25 ∧
      quietRowA.started_at = none ∧ quietRowA.run_at ≤ quietRowB.run_at := by
  have h := (get_next_task_spec 25 sQuiet).1 quietRowA (by decide)
  exact ⟨h.1, h.2.1, h.2.2.1,
    h.2.2.2 quietRowB (by decide) (by decide) (by decide)⟩

/-! ## C9: lease exclusivity under concurrent attempts -/

/-- C9: against a queue whose only leasable row is `r0`, any number of
concurrent lease attempts yields exactly one success: the first attempt
obtains `r0` and, holding its row lock, makes every other attempt skip the
row and observe nothing — no attempt blocks and no row is leased twice. -/
theorem lease_exclusive {now : Nat} {s : DB} {r0 : TaskRow}
    (h : s.tasks.filter (leasableB now []) = [r0]) (n : Nat) :
    leaseAttempts now (n + 1) [] s = some r0 :: List.replicate n none := by
  have h0 : get_next_task now [] s = some r0 := by
    rw [get_next_task, h]
    simp [minByRunAt]
  have haux : ∀ m (locked : List Nat), r0.id ∈ locked →
      leaseAttempts now m locked s = List.replicate m none := by
    intro m
    induction m with
    | zero => intro locked _; rfl
    | succ k ih =>
      intro locked hlk
      rw [leaseAttempts, get_next_task_of_locked h hlk, ih locked hlk,
        List.replicate_succ]
  rw [leaseAttempts, h0]
  simp only []
  rw [haux n [r0.id] (by simp)]

/-- Witness for C9: three concurrent attempts against `sQuiet` at
`now = 15` (only row A is due): one success, two empty observations. -/
theorem lease_exclusive_witness :
    leaseAttempts 15 3 [] sQuiet = [some quietRowA, none, none] :=
  lease_exclusive (by decide) 2

/-! ## C1: a leased row naming an unknown task -/

/-- C1 counterexample: with a due row named `"ghost"` and an empty
registry, `run_next_task` does not survive and handle the condition: it
raises (`TypeError`, at the `db.transaction()` entry, before the row is
even leased), the result is an error rather than a normal return, and the
carried state is unchanged — the row is neither marked started nor marked
failed.  This contradicts the claim that the condition is logged and
treated as a failed execution without crashing the worker loop. -/
theorem unknown_task_crash_counterexample :
    run_next_task [] 100 [] sGhost = .error (.typeError, sGhost) ∧
    (run_next_task [] 100 [] sGhost).isOk = false :=
  ⟨rfl, rfl⟩

/-- C1 amended: even when the queue holds a due row whose name the
registry cannot resolve, `run_next_task` raises `TypeError` at its
`db.transaction()` entry (db/__init__.py:146) before leasing the row or
consulting the registry: the `KeyError` path is unreachable, the store is
untouched (the row stays unstarted with its `run_at` unchanged, and no
failure bookkeeping is written), and the exception terminates
`run_tasks`, which catches nothing.  The hypotheses locate the claim's
scenario; the crash happens regardless of them. -/
theorem unknown_task_unreachable_lookup {reg : Registry} {now : Nat}
    {locked : List Nat} {s : DB} {row : TaskRow}
    (hmem : row ∈ s.tasks)
    (hdue : leasableB now locked row = true)
    (hunknown : get_task reg row.name = none) :
    run_next_task reg now locked s = .error (.typeError, s) :=
  rfl

/-- Witness for the amended C1 on the concrete `sGhost` store. -/
theorem unknown_task_unreachable_lookup_witness :
    run_next_task [] 100 [] sGhost = .error (.typeError, sGhost) :=
  @unknown_task_unreachable_lookup [] 100 [] sGhost ghostRow (by decide)
    (by decide) rfl

/-! ## C2: which iterations of the worker loop sleep -/

/-- C2 counterexample: the store `sTick` holds one due row for the
registered atomic task `"tick"` (third conjunct), yet `run_next_task`
neither leases nor executes it and returns no boolean at all: it raises
`TypeError` with the state untouched, and the loop iteration yields no
sleep decision (`run_tasks_iter` is `none`: the exception propagates and
`run_tasks` terminates).  This contradicts the claim that a due row is
leased and executed with `run_next_task` returning true. -/
theorem atomic_task_no_return_counterexample :
    run_next_task regTick 5 [] sTick = .error (.typeError, sTick) ∧
    run_tasks_iter regTick 5 [] sTick = none ∧
    get_next_task 5 [] sTick = some tickRow :=
  ⟨rfl, rfl, rfl⟩

/-- C2 amended: `run_next_task` never returns a boolean — every call
raises `TypeError` at the `db.transaction()` entry with the state
untouched — so the idle-sleep branch of `run_tasks` is unreachable: the
loop never sleeps and terminates on its first iteration, whether or not
anything is due.  (Had the db layer worked, the `return True` placement
inside `if _task and not task.atomic` would still make atomic executions
return false.) -/
theorem worker_loop_never_sleeps (reg : Registry) (now : Nat)
    (locked : List Nat) (s : DB) :
    run_tasks_iter reg now locked s = none ∧
    run_next_task reg now locked s = .error (.typeError, s) :=
  ⟨rfl, rfl⟩

/-! ## C3: atomic execution and the claimed savepoint rollback -/

/-- C3 (code bug): the claimed behavior — body writes rolled back by a
nested sub-transaction while `mark_started`/`mark_failed` bookkeeping is
retained and committed — never occurs.  `execute_task`'s atomic branch
always raises: the inner `db.transaction()` entry raises `TypeError`
before the body runs (no savepoint ever opens), the handler's
`task_failed` raises `TypeError` via `db.execute`, and that escapes with
the state untouched; and the worker iteration that would reach it raises
even earlier, as the concrete `sBoom` run shows. -/
theorem atomic_execution_always_raises :
    (∀ (task : Task) (task_id : Nat) (arguments : Args) (run_at : Nat)
      (from_schedule_id : Option Nat) (now : Nat) (s : DB),
      execute_task task task_id arguments run_at from_schedule_id true now
        s = .error (.typeError, s)) ∧
    run_next_task regBoom 50 [] sBoom = .error (.typeError, sBoom) :=
  ⟨fun _ _ _ _ _ _ _ => rfl, rfl⟩

/-! ## C4: the successor's run_at reference time -/

/-- C4 (code bug): no successor occurrence is ever created, with either
reference time: `queue_next_task` raises `TypeError` at its
`@db.transaction()` entry on every call, and the success path that would
invoke it is unreachable (the worker iteration raises at its own
transaction entry, as the concrete run on `sChain` — a due occurrence of
an every-minute schedule — shows). -/
theorem successor_never_queued :
    (∀ (schedule_id : Nat) (previous : Option Nat) (now : Nat) (s : DB),
      queue_next_task schedule_id previous now s = .error .typeError) ∧
    run_next_task regChain 500 [] sChain = .error (.typeError, sChain) :=
  ⟨fun _ _ _ _ => rfl, rfl⟩

/-! ## C5: retry bookkeeping after a failure -/

/-- C5 (code bug): the claimed retry bookkeeping never happens:
`task_failed` raises `TypeError` via `db.execute` on every call, so
`started_at` is never reset to null and `run_at` is never advanced by the
30-second backoff — for timeouts or any other failure — and the worker
iteration that would reach the failure handler raises at its transaction
entry anyway, as the concrete run on `sSlow` (a due row for a
timeout-bound body) shows. -/
theorem task_failed_always_raises :
    (∀ (task_id : Nat) (s : DB), task_failed task_id s = .error .typeError) ∧
    run_next_task regSlow 50 [] sSlow = .error (.typeError, sSlow) :=
  ⟨fun _ _ => rfl, rfl⟩

/-! ## C6: success terminality -/

/-- C6 (code bug): the claim's premise can never be established: no task
row is ever executed successfully to completion, because `task_finished`
raises `TypeError` via `db.execute` on every call (so `finished_at` is
never set on any row) and every worker iteration raises at its
`db.transaction()` entry instead of returning normally (so no execution
reaches the success bookkeeping at all). -/
theorem no_execution_ever_succeeds :
    (∀ (task_id now : Nat) (s : DB),
      task_finished task_id now s = .error .typeError) ∧
    (∀ (reg : Registry) (now : Nat) (locked : List Nat) (s : DB),
      (run_next_task reg now locked s).isOk = false) :=
  ⟨fun _ _ _ => rfl, fun _ _ _ _ => rfl⟩

/-! ## C8: two-step creation of a recurring schedule -/

/-- C8 (code bug): the two-step creation never executes:
`create_scheduled_task` is `@db.transaction()`-decorated, so every call
raises `TypeError` at the decorator's context entry, before the first
`INSERT` — no schedule row, no first occurrence, no enable flip, no id
returned (and its linking `UPDATE` goes through the broken `db.execute`,
so the body would raise even if the transaction opened). -/
theorem create_scheduled_task_always_raises :
    ∀ (name : String) (args : Args) (expr : Cron) (now : Nat) (s : DB),
      create_scheduled_task name args expr now s = .error .typeError :=
  fun _ _ _ _ _ => rfl

/-! ## C10: chaining past a disabled schedule -/

/-- C10 (code bug): the chain never advances at all, so in particular a
disabled schedule's chain does not continue: even when the schedule row
exists and has `is_enabled = false` — the scenario whose SQL indeed never
reads the flag — `queue_next_task` raises `TypeError` at its
`@db.transaction()` entry before its `SELECT`, inserting no successor and
leaving `next_task_id` untouched. -/
theorem disabled_schedule_chain_never_advances {sid : Nat} {s : DB}
    {sch : ScheduleRow} (hsch : findSchedule sid s = some sch)
    (hdis : sch.is_enabled = false) (previous : Option Nat) (now : Nat) :
    queue_next_task sid previous now s = .error .typeError :=
  rfl

/-- Witness for C10 on the concrete disabled schedule of `sChain`. -/
theorem disabled_schedule_chain_never_advances_witness :
    queue_next_task 2 (some 120) 500 sChain = .error .typeError :=
  @disabled_schedule_chain_never_advances 2 sChain chainSchedule (by decide)
    (by decide) (some 120) 500

end Heim
